import Mathlib

/-!
Verification development for the python-ldap C extension modules
(Modules/LDAPObject.c, Modules/ldapcontrol.c, Modules/functions.c,
Modules/constants.c, Modules/options.c, Modules/LDAPObject.h,
Modules/pythonldap.h).

Python byte strings are modelled as lists of naturals, Python str as
Lean String, C pointers as natural-number addresses where ownership
matters, and the external OpenLDAP / liblber engine entry points as
explicit function parameters (their contracts, where a claim needs
them, are modelled from the specification and stated as hypotheses).
-/

namespace PythonLdap

/-! ## Control marshaling (Modules/ldapcontrol.c)

A Python control is the tuple (oid : string, criticality, value : bytes
or None).  Tuple_to_LDAPControl parses it with format "sbO": the "s"
conversion rejects an oid with an embedded NUL byte, the oid is copied
into a newly allocated buffer, criticality is stored in a char field,
and the value berval is either the NULL berval (for None) or points at
the bytes object contents. -/

/-- A Python control triple: oid, criticality, optional byte-string value. -/
abbrev CtrlTuple := String × Bool × Option (List Nat)

/-- A struct berval whose data pointer may be NULL; the payload bytes are
carried inline (the pointer identity is irrelevant for the control codec
claims). -/
structure BervalS where
  bv_len : Nat
  bv_val : Option (List Nat)
deriving DecidableEq

/-- Native LDAPControl as built by Tuple_to_LDAPControl: copied oid string,
char criticality, and a berval value. -/
structure LDAPControlN where
  ldctl_oid : String
  ldctl_iscritical : Nat
  ldctl_value : BervalS
deriving DecidableEq

/-- True when a Python str contains an embedded NUL character, which the
PyArg "s" conversion rejects. -/
def hasNulChar (s : String) : Bool := s.toList.contains (Char.ofNat 0)

/-- Embedding of Tuple_to_LDAPControl (ldapcontrol.c).  Returns none when
argument parsing fails (oid with embedded NUL); otherwise copies the oid,
stores the criticality char, and builds the value berval: None maps to the
NULL berval of length 0, bytes map to a berval at the bytes data of the
bytes length. -/
def Tuple_to_LDAPControl (t : CtrlTuple) : Option LDAPControlN :=
  if hasNulChar t.1 then none
  else
    let berbytes : BervalS :=
      match t.2.2 with
      | none => ⟨0, none⟩
      | some bs => ⟨bs.length, some bs⟩
    some ⟨t.1, if t.2.1 then 1 else 0, berbytes⟩

/-- Embedding of LDAPControls_from_object (ldapcontrol.c): converts each
tuple in order, aborting (and in C freeing everything built so far) at the
first failure.  none models the error return (return value 0 in C); a
successful return is never a NULL array. -/
def LDAPControls_from_object : List CtrlTuple → Option (List LDAPControlN)
  | [] => some []
  | t :: rest =>
    match Tuple_to_LDAPControl t, LDAPControls_from_object rest with
    | some lc, some lcs => some (lc :: lcs)
    | _, _ => none

/-- Modelled from the spec: LDAPberval_to_object lives in Modules/berval.c,
which is not under src/ (only berval.h declares it).  Per the data model a
Control value is a byte-string or null: a berval with a NULL data pointer
maps to Python None and any other berval maps to the bytes object of its
first bv_len bytes. -/
def LDAPberval_to_object (bv : BervalS) : Option (List Nat) :=
  match bv.bv_val with
  | none => none
  | some bs => some (bs.take bv.bv_len)

/-- Embedding of LDAPControls_to_List (ldapcontrol.c): a NULL native array
(input none) yields the empty list; otherwise each control maps back to the
tuple (oid, criticality, value).  The criticality char travels back to
Python as an int; Python equates True with 1 and False with 0, which the
Bool result models. -/
def LDAPControls_to_List (arr : Option (List LDAPControlN)) : List CtrlTuple :=
  match arr with
  | none => []
  | some lcs =>
    lcs.map (fun lc =>
      (lc.ldctl_oid, lc.ldctl_iscritical != 0, LDAPberval_to_object lc.ldctl_value))

/-! ## Pagination control codec (Modules/ldapcontrol.c)

encode_rfc2696 and decode_rfc2696 are built on the liblber
tag-length-value builder (ber_printf / ber_scanf / ber_flatten), an
external collaborator.  Modelled from the spec: the generic TLV builder
supplied by the protocol engine is represented symbolically, one item per
conversion directive, so that a flattened value is the sequence of items
written and ber_scanf reads them back positionally. -/

/-- One symbolic TLV item as written by a ber_printf directive: an opened
sequence, a closed sequence, an integer, or an octet string. -/
inductive BerItem
  | seqOpen
  | seqClose
  | berInt (i : Int)
  | berOctets (bs : List Nat)
deriving DecidableEq

/-- Embedding of encode_rfc2696: ber_printf writes the opening sequence and
the integer size, then a zero-length octet string (directive "o" with the
empty string) when the cookie is empty and the cookie octet string
(directive "O") otherwise, then closes the sequence; ber_flatten yields the
item sequence. -/
def encode_rfc2696 (size : Int) (cookie : List Nat) : List BerItem :=
  let opened := [BerItem.seqOpen, BerItem.berInt size]
  let withCookie :=
    opened ++ (if cookie.length = 0 then [BerItem.berOctets []]
               else [BerItem.berOctets cookie])
  withCookie ++ [BerItem.seqClose]

/-- Embedding of decode_rfc2696: ber_scanf with pattern consuming the
sequence opening, an integer and an octet string; anything else is a
decoding error (LDAP_DECODING_ERROR raised in C, none here). -/
def decode_rfc2696 (v : List BerItem) : Option (Int × List Nat) :=
  match v with
  | BerItem.seqOpen :: BerItem.berInt count :: BerItem.berOctets cookie :: _ =>
    some (count, cookie)
  | _ => none

/-! ## Modification marshaling (Modules/LDAPObject.c)

Tuple_to_LDAPMod converts a Python tuple (op, type, values) — or
(type, values) in no-op mode — into a native LDAPMod.  Ownership is the
point of interest here, so Python byte strings carry an address (the
address PyBytes_AsString returns for their internal storage) and native
allocations draw fresh addresses from an allocation counter that starts
above every caller address. -/

/-- A Python bytes object: the address of its internal buffer and its
contents. -/
structure PyBytesObj where
  addr : Nat
  data : List Nat
deriving DecidableEq

/-- An element of a values sequence: either a bytes object or some
non-bytes Python object (which makes Tuple_to_LDAPMod raise TypeError). -/
inductive SeqItem
  | bytesItem (b : PyBytesObj)
  | nonBytesItem
deriving DecidableEq

/-- The values slot of a modification tuple, mirroring the branches of
Tuple_to_LDAPMod: None, a single bytes object, a general sequence, or any
other object (which falls through every branch and leaves mod_bvalues
NULL). -/
inductive ModvalsArg
  | mvNone
  | mvBytes (b : PyBytesObj)
  | mvSeq (items : List SeqItem)
  | mvOther
deriving DecidableEq

/-- A modification entry as Python hands it over: a 2-tuple (no-op form),
a 3-tuple, or some non-tuple object. -/
inductive ModTupleShape
  | pair (mtype : String) (vals : ModvalsArg)
  | triple (op : Nat) (mtype : String) (vals : ModvalsArg)
  | notATuple
deriving DecidableEq

/-- A native struct berval inside an LDAPMod: length plus the address its
bv_val pointer holds. -/
structure BervalPtr where
  bv_len : Nat
  bv_val : Nat
deriving DecidableEq

/-- Native LDAPMod as built by Tuple_to_LDAPMod: the operation code, the
address and copied contents of the mod_type buffer, and the optional
bvalues array. -/
structure LDAPModN where
  mod_op : Nat
  mod_type_addr : Nat
  mod_type_data : String
  mod_bvalues : Option (List BervalPtr)
deriving DecidableEq

/-- LDAP_MOD_BVALUES, ored into every mod_op. -/
def LDAP_MOD_BVALUES : Nat := 0x80

/-- Converts the items of a values sequence to bervals: each item must be
a bytes object (else TypeError, none), and the berval bv_val pointer is
the address of the bytes object internal storage (PyBytes_AsString), not a
copy. -/
def seqToBervals : List SeqItem → Option (List BervalPtr)
  | [] => some []
  | SeqItem.bytesItem b :: rest =>
    match seqToBervals rest with
    | some bvs => some (⟨b.data.length, b.addr⟩ :: bvs)
    | none => none
  | SeqItem.nonBytesItem :: _ => none

/-- Common body of Tuple_to_LDAPMod (LDAPObject.c) after argument
parsing.  fresh is the next native allocation address.  The "s"
conversion has rejected a type with embedded NUL; the mod_type buffer is
newly allocated (address fresh) and the type characters are copied into
it with memcpy; the bvalues, when present, point directly at the caller
byte-string storage (PyBytes_AsString).  A values slot that is neither
None, bytes nor a sequence falls through every branch and leaves
mod_bvalues NULL.  Returns the LDAPMod and the advanced allocation
counter. -/
def buildLDAPMod (fresh : Nat) (op : Nat) (mtype : String) (vals : ModvalsArg) :
    Option (LDAPModN × Nat) :=
  if hasNulChar mtype then none
  else
    let base : LDAPModN :=
      ⟨op ||| LDAP_MOD_BVALUES, fresh, mtype, none⟩
    match vals with
    | ModvalsArg.mvNone => some (base, fresh + 1)
    | ModvalsArg.mvOther => some (base, fresh + 1)
    | ModvalsArg.mvBytes b =>
      some ({ base with mod_bvalues := some [⟨b.data.length, b.addr⟩] },
            fresh + 1)
    | ModvalsArg.mvSeq items =>
      match seqToBervals items with
      | some bvs => some ({ base with mod_bvalues := some bvs }, fresh + 1)
      | none => none

/-- Embedding of Tuple_to_LDAPMod (LDAPObject.c): in no-op mode the tuple
must be a 2-tuple (implicit operation code 0), otherwise a 3-tuple; a
non-tuple or a wrong arity is a TypeError (none). -/
def Tuple_to_LDAPMod (fresh : Nat) (no_op : Bool) (t : ModTupleShape) :
    Option (LDAPModN × Nat) :=
  match no_op, t with
  | true, ModTupleShape.pair mtype vals => buildLDAPMod fresh 0 mtype vals
  | false, ModTupleShape.triple op mtype vals => buildLDAPMod fresh op mtype vals
  | _, _ => none

/-- Embedding of List_to_LDAPMods (LDAPObject.c): converts each tuple in
order, threading the allocation counter; the first failure frees
everything built so far and aborts (none). -/
def List_to_LDAPMods (fresh : Nat) (no_op : Bool) :
    List ModTupleShape → Option (List LDAPModN × Nat)
  | [] => some ([], fresh)
  | t :: rest =>
    match Tuple_to_LDAPMod fresh no_op t with
    | none => none
    | some (lm, fresh1) =>
      match List_to_LDAPMods fresh1 no_op rest with
      | none => none
      | some (lms, fresh2) => some (lm :: lms, fresh2)

/-- The addresses of the caller byte-string buffers reachable from one
values slot. -/
def modvalsAddrs : ModvalsArg → List Nat
  | ModvalsArg.mvNone => []
  | ModvalsArg.mvOther => []
  | ModvalsArg.mvBytes b => [b.addr]
  | ModvalsArg.mvSeq items =>
    items.filterMap (fun it =>
      match it with
      | SeqItem.bytesItem b => some b.addr
      | SeqItem.nonBytesItem => none)

/-- The addresses of the caller byte-string buffers reachable from one
modification tuple. -/
def shapeValueAddrs : ModTupleShape → List Nat
  | ModTupleShape.pair _ vals => modvalsAddrs vals
  | ModTupleShape.triple _ _ vals => modvalsAddrs vals
  | ModTupleShape.notATuple => []

/-- The addresses of the caller byte-string buffers reachable from a
modification list. -/
def listValueAddrs (l : List ModTupleShape) : List Nat :=
  (l.map shapeValueAddrs).flatten

/-- Convenience accessor used by the concrete counterexample: the bv_val
pointer of the first berval of the first LDAPMod of a marshaled list. -/
def firstBvVal (r : Option (List LDAPModN × Nat)) : Option Nat :=
  match r with
  | some (lm :: _, _) =>
    match lm.mod_bvalues with
    | some (bv :: _) => some bv.bv_val
    | _ => none
  | _ => none

/-! ## Distinguished-name parse and build (Modules/functions.c)

l_ldap_str2dn and l_ldap_dn2str convert between the engine LDAPDN tree
(an array of RDNs, each an array of AVAs) and the Python nested list
with (attr, value, flags) triples.  The engine entry points ldap_bv2dn
and ldap_dn2bv belong to the external protocol engine and are passed in
as function parameters. -/

/-- An engine LDAPAVA: attribute berval, value berval and the la_flags
bitmask (a C int, always non-negative in practice; modelled as the
32-bit pattern). -/
structure EngineAVA where
  la_attr : String
  la_value : String
  la_flags : Nat
deriving DecidableEq

/-- An engine relative DN: a NULL-terminated array of AVAs. -/
abbrev EngineRDN := List EngineAVA

/-- An engine LDAPDN: a NULL-terminated array of RDNs. -/
abbrev EngineDN := List EngineRDN

/-- A Python AVA triple as returned by str2dn: (attr, value, flags). -/
abbrev PyAVA := String × String × Nat

/-- The Python nested-list form of a DN. -/
abbrev PyDN := List (List PyAVA)

/-- LDAP_AVA_FREE_ATTR, the engine-internal flag recording that la_attr
must be freed.  The numeric value comes from the engine header ldap.h,
which is external; any value works for the claims proved here. -/
def LDAP_AVA_FREE_ATTR : Nat := 0x10

/-- LDAP_AVA_FREE_VALUE, the engine-internal flag recording that la_value
must be freed. -/
def LDAP_AVA_FREE_VALUE : Nat := 0x20

/-- The C expression la_flags and not (LDAP_AVA_FREE_ATTR or
LDAP_AVA_FREE_VALUE), with the complement taken at the 32-bit int
width. -/
def maskAvaFlags (f : Nat) : Nat :=
  f &&& (Nat.xor (2 ^ 32 - 1) (LDAP_AVA_FREE_ATTR ||| LDAP_AVA_FREE_VALUE))

/-- The Py_BuildValue step of l_ldap_str2dn for one AVA: both bervals
become str objects and the flags are exposed with the two FREE bits
cleared. -/
def avaToPy (a : EngineAVA) : PyAVA :=
  (a.la_attr, a.la_value, maskAvaFlags a.la_flags)

/-- The full tree rebuild of l_ldap_str2dn. -/
def engineDNtoPy (d : EngineDN) : PyDN :=
  d.map (fun rdn => rdn.map avaToPy)

/-- Embedding of l_ldap_str2dn (functions.c).  bv2dn stands for the
engine parser ldap_bv2dn.  An empty input string short-circuits to the
empty list before the engine parser runs (GH-549: ldap_bv2dn rejects the
empty string); otherwise the engine result is rebuilt as Python lists
and the engine tree is freed. -/
def l_ldap_str2dn (bv2dn : String → Int → Option EngineDN)
    (s : String) (flags : Int) : Option PyDN :=
  if s.length = 0 then some []
  else (bv2dn s flags).map engineDNtoPy

/-- The bottom-up structure rebuild of l_ldap_dn2str: each Python triple
becomes an engine AVA with copied attr and value buffers and la_flags
from the encoding integer. -/
def pyDNtoEngine (d : PyDN) : EngineDN :=
  d.map (fun rdn => rdn.map (fun p => EngineAVA.mk p.1 p.2.1 p.2.2))

/-- Embedding of l_ldap_dn2str (functions.c).  dn2bv stands for the
engine builder ldap_dn2bv.  Shape validation (exact 3-tuples of
(str, str, int)) is enforced by the Lean types; the constructed engine
tree is freed on every exit path. -/
def l_ldap_dn2str (dn2bv : EngineDN → Int → Option String)
    (d : PyDN) (flags : Int) : Option String :=
  dn2bv (pyDNtoEngine d) flags

/-- A concrete toy engine parser used to evaluate the DN theorems on
closed inputs: it accepts exactly the two spellings a=b and A=B of one
single-AVA DN. -/
def bv2dnW : String → Int → Option EngineDN :=
  fun t _ =>
    if t = "a=b" ∨ t = "A=B" then some [[⟨"a", "b", 0⟩]] else none

/-- The matching concrete toy engine builder: the empty DN prints as the
empty string and the single-AVA DN prints as a=b. -/
def dn2bvW : EngineDN → Int → Option String :=
  fun d _ =>
    if d = [] then some ""
    else if d = [[⟨"a", "b", 0⟩]] then some "a=b" else none

/-! ## Result collection (l_ldap_result4, Modules/LDAPObject.c) -/

/-- LDAP_TIMEOUT, the API result code the engine header defines for an
elapsed deadline. -/
def LDAP_TIMEOUT : Int := -5

/-- Abstract outcome of one l_ldap_result4 call.  noneTuple n is the
all-None envelope of arity n; raiseLDAPerr is the LDAPerr raise path;
processMessage covers the further decoding of an actual result, which no
claim here inspects. -/
inductive Result4Outcome
  | connInvalid
  | engineFailure
  | noneTuple (arity : Nat)
  | raiseLDAPerr (code : Int)
  | processMessage (res_type : Int)
deriving DecidableEq

/-- Embedding of the validity helper not_valid (LDAPObject.c): true when
the handle is unbound, in which case the caller raises the connection
invalid error. -/
def not_valid (valid : Bool) : Bool := !valid

/-- Embedding of l_ldap_result4 (LDAPObject.c) up to the demultiplexing
of an actual result.  ldap_result_fn stands for the engine poll
ldap_result; it receives the timeout bound (some t for a timeout of at
least zero seconds, none for the NULL timeval of a negative timeout) and
reports the result kind: negative for an engine error, zero for no
pending result.  With no pending result, a zero timeout returns the
all-None envelope (arity 6 when extended-operation decoding was
requested, else 4) and any other timeout raises LDAP_TIMEOUT. -/
def l_ldap_result4 (ldap_result_fn : Option Rat → Int)
    (valid : Bool) (timeout : Rat) (add_extop : Bool) : Result4Outcome :=
  if not_valid valid then Result4Outcome.connInvalid
  else
    let tvp : Option Rat := if 0 ≤ timeout then some timeout else none
    let res_type := ldap_result_fn tvp
    if res_type < 0 then Result4Outcome.engineFailure
    else if res_type = 0 then
      if timeout = 0 then
        Result4Outcome.noneTuple (if add_extop then 6 else 4)
      else Result4Outcome.raiseLDAPerr LDAP_TIMEOUT
    else Result4Outcome.processMessage res_type

/-! ## Per-method validity guards (Modules/LDAPObject.c)

Every method in the LDAP_Type method table parses its arguments and then
runs its validity check, marshaling and engine call.  methodEntry
records, per method, what happens right after a successful argument
parse on a handle with the given validity flag: the methods that call
not_valid raise the connection invalid error on an unbound handle;
l_ldap_set_option and l_ldap_get_option go straight into
LDAP_set_option / LDAP_get_option (options.c) without a validity
check. -/

/-- The methods of the connection handle, one constructor per entry of
the LDAP_Type method table. -/
inductive ConnMethodName
  | unbind_ext
  | abandon_ext
  | add_ext
  | simple_bind
  | sasl_interactive_bind_s
  | sasl_bind_s
  | compare_ext
  | delete_ext
  | modify_ext
  | rename
  | result4
  | search_ext
  | start_tls_s
  | whoami_s
  | passwd
  | set_option
  | get_option
  | cancel
  | extop
deriving DecidableEq

/-- What a method does right after argument parsing. -/
inductive MethodEntryResult
  | connInvalid
  | proceed
deriving DecidableEq

/-- The post-parse prologue of each method, read off its source: a
not_valid guard for every method except set_option and get_option, whose
bodies go straight to the option machinery. -/
def methodEntry (m : ConnMethodName) (valid : Bool) : MethodEntryResult :=
  match m with
  | ConnMethodName.set_option => MethodEntryResult.proceed
  | ConnMethodName.get_option => MethodEntryResult.proceed
  | _ =>
    if not_valid valid then MethodEntryResult.connInvalid
    else MethodEntryResult.proceed

/-! ### LDAP_set_option (Modules/options.c)

A model of the value-dispatch switch, detailed enough to show that no
branch consults the validity flag of the connection: the outcome of
LDAP_set_option on a connection depends only on the option id and the
value, never on whether the handle is bound. -/

/-- A Python value as handed to set_option. -/
inductive PyOptVal
  | vNone
  | vBool (b : Bool)
  | vInt (i : Int)
  | vFloat (q : Rat)
  | vStr (s : String)
  | vCtrls (cs : List CtrlTuple)
  | vOther
deriving DecidableEq

/-- The option ids named in the unconditionally compiled cases of the
LDAP_set_option switch, plus the default case. -/
inductive OptId
  | OPT_API_INFO
  | OPT_API_FEATURE_INFO
  | OPT_REFERRALS
  | OPT_RESTART
  | OPT_DEREF
  | OPT_SIZELIMIT
  | OPT_TIMELIMIT
  | OPT_PROTOCOL_VERSION
  | OPT_ERROR_NUMBER
  | OPT_DEBUG_LEVEL
  | OPT_HOST_NAME
  | OPT_URI
  | OPT_ERROR_STRING
  | OPT_MATCHED_DN
  | OPT_TIMEOUT
  | OPT_NETWORK_TIMEOUT
  | OPT_SERVER_CONTROLS
  | OPT_CLIENT_CONTROLS
  | unknownOpt (code : Int)
deriving DecidableEq

/-- Outcome of LDAP_set_option: a ValueError (read-only option, unknown
option, bad timeout), a conversion failure of the value, a controls
marshaling failure, or the engine call ldap_set_option — reached with
the connection handle regardless of its validity flag. -/
inductive SetOptOutcome
  | readOnlyValueError
  | unknownValueError (code : Int)
  | valueParseError
  | timeoutValueError
  | controlsMarshalError
  | engineSetOption (onConnection : Bool)
deriving DecidableEq

/-- PyObject_IsTrue for the modelled values. -/
def pyIsTrue : PyOptVal → Bool
  | PyOptVal.vNone => false
  | PyOptVal.vBool b => b
  | PyOptVal.vInt i => i != 0
  | PyOptVal.vFloat q => q != 0
  | PyOptVal.vStr s => s.length != 0
  | PyOptVal.vCtrls cs => !cs.isEmpty
  | PyOptVal.vOther => true

/-- PyArg_Parse with format "i": accepts int (and bool, an int
subclass). -/
def pyToInt : PyOptVal → Option Int
  | PyOptVal.vInt i => some i
  | PyOptVal.vBool b => some (if b then 1 else 0)
  | _ => none

/-- PyArg_Parse with format "s": accepts str without embedded NUL. -/
def pyToStr : PyOptVal → Option String
  | PyOptVal.vStr s => if hasNulChar s then none else some s
  | _ => none

/-- PyArg_Parse with format "d": accepts float, int and bool. -/
def pyToDouble : PyOptVal → Option Rat
  | PyOptVal.vFloat q => some q
  | PyOptVal.vInt i => some (i : Rat)
  | PyOptVal.vBool b => some (if b then 1 else 0)
  | _ => none

/-- Embedding of LDAP_set_option (options.c) on a connection handle.
validFlag is the validity flag of the handle; the body never reads it.
Read-only options raise ValueError; truth-value options accept any
value; integer, string and timeout options convert the value or fail;
control-list options marshal through LDAPControls_from_object; unknown
options raise ValueError; every successful conversion proceeds to the
engine call on the underlying session. -/
def LDAP_set_option (validFlag : Bool) (option : OptId) (value : PyOptVal) :
    SetOptOutcome :=
  match option with
  | OptId.OPT_API_INFO => SetOptOutcome.readOnlyValueError
  | OptId.OPT_API_FEATURE_INFO => SetOptOutcome.readOnlyValueError
  | OptId.OPT_REFERRALS => SetOptOutcome.engineSetOption true
  | OptId.OPT_RESTART => SetOptOutcome.engineSetOption true
  | OptId.OPT_DEREF
  | OptId.OPT_SIZELIMIT
  | OptId.OPT_TIMELIMIT
  | OptId.OPT_PROTOCOL_VERSION
  | OptId.OPT_ERROR_NUMBER
  | OptId.OPT_DEBUG_LEVEL =>
    match pyToInt value with
    | some _ => SetOptOutcome.engineSetOption true
    | none => SetOptOutcome.valueParseError
  | OptId.OPT_HOST_NAME
  | OptId.OPT_URI
  | OptId.OPT_ERROR_STRING
  | OptId.OPT_MATCHED_DN =>
    match pyToStr value with
    | some _ => SetOptOutcome.engineSetOption true
    | none => SetOptOutcome.valueParseError
  | OptId.OPT_TIMEOUT
  | OptId.OPT_NETWORK_TIMEOUT =>
    match value with
    | PyOptVal.vNone => SetOptOutcome.engineSetOption true
    | _ =>
      match pyToDouble value with
      | none => SetOptOutcome.valueParseError
      | some d =>
        if 0 ≤ d then SetOptOutcome.engineSetOption true
        else if d = -1 then SetOptOutcome.engineSetOption true
        else SetOptOutcome.timeoutValueError
  | OptId.OPT_SERVER_CONTROLS
  | OptId.OPT_CLIENT_CONTROLS =>
    match value with
    | PyOptVal.vCtrls cs =>
      match LDAPControls_from_object cs with
      | some _ => SetOptOutcome.engineSetOption true
      | none => SetOptOutcome.controlsMarshalError
    | _ => SetOptOutcome.controlsMarshalError
  | OptId.unknownOpt code => SetOptOutcome.unknownValueError code

/-! ## Thread release bracket (Modules/pythonldap.h, Modules/LDAPObject.h)

The macros LDAP_BEGIN_ALLOW_THREADS and LDAP_END_ALLOW_THREADS bracket
every blocking engine call.  The handle carries one release slot
(the field named underscore save); BEGIN aborts the process with
Py_FatalError when the slot is already occupied, otherwise stores the
saved thread state there; END empties the slot and restores the saved
state. -/

/-- The slot-relevant state of a connection handle: the release slot,
holding the saved thread state of an in-flight blocking call. -/
structure ConnSlotState where
  saveSlot : Option Nat
deriving DecidableEq

/-- Outcome of the BEGIN macro: the process-fatal invariant violation, or
the handle with the thread state parked in the slot. -/
inductive BeginOutcome
  | fatalInvariantViolation
  | ok (st : ConnSlotState)
deriving DecidableEq

/-- Embedding of LDAP_BEGIN_ALLOW_THREADS: an occupied slot is the fatal
saving thread twice condition; otherwise PyEval_SaveThread parks the
current thread state ts in the slot. -/
def LDAP_BEGIN_ALLOW_THREADS (st : ConnSlotState) (ts : Nat) : BeginOutcome :=
  match st.saveSlot with
  | some _ => BeginOutcome.fatalInvariantViolation
  | none => BeginOutcome.ok ⟨some ts⟩

/-- Embedding of LDAP_END_ALLOW_THREADS: empties the slot and hands the
parked thread state to PyEval_RestoreThread. -/
def LDAP_END_ALLOW_THREADS (st : ConnSlotState) : ConnSlotState × Option Nat :=
  (⟨none⟩, st.saveSlot)

/-- One complete blocking engine call as every operation performs it:
BEGIN, the engine call, END.  none is the process-fatal outcome. -/
def blockingCallBracket (st : ConnSlotState) (ts : Nat) :
    Option ConnSlotState :=
  match LDAP_BEGIN_ALLOW_THREADS st ts with
  | BeginOutcome.fatalInvariantViolation => none
  | BeginOutcome.ok mid => some (LDAP_END_ALLOW_THREADS mid).1

/-! ## Error classification (Modules/constants.c)

errobjects is a fixed table spanning the result codes from
LDAP_ERROR_MIN to LDAP_ERROR_MAX, populated once at startup; entries may
be NULL.  The bounds and the table contents come from the generated
constants header, so they are parameters here. -/

/-- The classification table: its code range and the registered exception
class (identified by a number) per code, none for an unpopulated slot. -/
structure ErrTable where
  errMin : Int
  errMax : Int
  registered : Int → Option Nat

/-- What LDAPerr raises: a registered class with no payload
(PyErr_SetNone), or the base LDAPError class with the one-entry payload
mapping errnum to the code. -/
inductive RaisedErr
  | classified (cls : Nat)
  | baseWithErrnum (code : Int)
deriving DecidableEq

/-- Embedding of LDAPerr (constants.c): a code inside the table range
with a registered class raises that class bare; any other code raises
the base class with payload errnum = code. -/
def LDAPerr (tbl : ErrTable) (errnum : Int) : RaisedErr :=
  if tbl.errMin ≤ errnum ∧ errnum ≤ tbl.errMax then
    match tbl.registered errnum with
    | some cls => RaisedErr.classified cls
    | none => RaisedErr.baseWithErrnum errnum
  else RaisedErr.baseWithErrnum errnum

/-- The class an LDAPraise_for_message raise uses. -/
inductive RaiseClassChoice
  | classifiedClass (cls : Nat)
  | baseClass
deriving DecidableEq

/-- The errobj selection step of LDAPraise_for_message (constants.c,
lines 95 to 102): look the code up in the table when it is in range, and
fall back to the base class when the slot is empty or the code out of
range. -/
def LDAPraise_classify (tbl : ErrTable) (errnum : Int) : RaiseClassChoice :=
  let errobj : Option Nat :=
    if tbl.errMin ≤ errnum ∧ errnum ≤ tbl.errMax then tbl.registered errnum
    else none
  match errobj with
  | some cls => RaiseClassChoice.classifiedClass cls
  | none => RaiseClassChoice.baseClass

/-- A concrete classification table used to evaluate the error-mapper
theorem on closed inputs: range 0 to 10, with class 7 registered for
code 1 only. -/
def errTableW : ErrTable :=
  ⟨0, 10, fun c => if c = 1 then some 7 else none⟩

/-! # Theorems -/

/-- Decoding inverts the control conversion of one tuple. -/
theorem tuple_ctrl_inverse (t : CtrlTuple) (lc : LDAPControlN)
    (h : Tuple_to_LDAPControl t = some lc) :
    (lc.ldctl_oid, lc.ldctl_iscritical != 0,
      LDAPberval_to_object lc.ldctl_value) = t := by
  obtain ⟨oid, crit, val⟩ := t
  unfold Tuple_to_LDAPControl at h
  by_cases hnul : hasNulChar oid
  · simp [hnul] at h
  · simp only [hnul, if_false, Bool.false_eq_true] at h
    cases val with
    | none =>
      cases h
      cases crit <;> simp [LDAPberval_to_object]
    | some bs =>
      cases h
      cases crit <;> simp [LDAPberval_to_object]

/-- C2: for every list of control triples (oid, criticality, value bytes
or None), including the empty list, that the marshaler accepts, decoding
the marshaled native control array yields the list back unchanged, and a
NULL or zero-length native array decodes to the empty list rather than
to None. -/
theorem controls_roundtrip (c : List CtrlTuple) (arr : List LDAPControlN)
    (h : LDAPControls_from_object c = some arr) :
    LDAPControls_to_List (some arr) = c ∧
    LDAPControls_to_List none = [] ∧
    LDAPControls_to_List (some []) = [] := by
  refine ⟨?_, rfl, rfl⟩
  induction c generalizing arr with
  | nil =>
    cases h
    rfl
  | cons t rest ih =>
    unfold LDAPControls_from_object at h
    cases ht : Tuple_to_LDAPControl t with
    | none => rw [ht] at h; exact absurd h (by simp)
    | some lc =>
      rw [ht] at h
      cases hr : LDAPControls_from_object rest with
      | none => rw [hr] at h; exact absurd h (by simp)
      | some lcs =>
        rw [hr] at h
        cases h
        have hrest := ih lcs hr
        simp only [LDAPControls_to_List, List.map_cons] at hrest ⊢
        rw [hrest]
        rw [tuple_ctrl_inverse t lc ht]

/-- Witness evaluating controls_roundtrip on a concrete two-control
list with a non-empty value and a None value. -/
theorem controls_roundtrip_witness :
    LDAPControls_to_List (some [⟨"1.2.3", 1, ⟨2, some [1, 2]⟩⟩,
                                ⟨"4.5", 0, ⟨0, none⟩⟩]) =
      [("1.2.3", true, some [1, 2]), ("4.5", false, none)] ∧
    LDAPControls_to_List none = [] ∧
    LDAPControls_to_List (some []) = [] :=
  controls_roundtrip
    [("1.2.3", true, some [1, 2]), ("4.5", false, none)]
    [⟨"1.2.3", 1, ⟨2, some [1, 2]⟩⟩, ⟨"4.5", 0, ⟨0, none⟩⟩]
    (by decide)

/-- C7: decoding the encoded pagination control value returns exactly the
size and cookie that were encoded, for empty and non-empty cookies, and
an empty cookie is encoded as a zero-length octet string rather than
omitted. -/
theorem page_control_roundtrip (n : Int) (cookie : List Nat) (hn : 0 ≤ n) :
    decode_rfc2696 (encode_rfc2696 n cookie) = some (n, cookie) ∧
    BerItem.berOctets [] ∈ encode_rfc2696 n [] := by
  constructor
  · cases cookie with
    | nil => rfl
    | cons b bs => simp [encode_rfc2696, decode_rfc2696]
  · simp [encode_rfc2696]

/-- Witness evaluating page_control_roundtrip at size 5 with a non-empty
cookie, plus the same round trip at the empty cookie. -/
theorem page_control_roundtrip_witness :
    (decode_rfc2696 (encode_rfc2696 5 [9, 8]) = some (5, [9, 8]) ∧
      BerItem.berOctets [] ∈ encode_rfc2696 5 []) ∧
    decode_rfc2696 (encode_rfc2696 5 []) = some (5, []) :=
  ⟨page_control_roundtrip 5 [9, 8] (by decide),
   (page_control_roundtrip 5 [] (by decide)).1⟩

/-- C4: for every flags value, parsing the empty DN string returns the
empty list without an error, independently of the engine parser (which
is never consulted: the result is the same for every parser function,
including one that rejects everything). -/
theorem str2dn_empty_short_circuit
    (bv2dn : String → Int → Option EngineDN) (flags : Int) :
    l_ldap_str2dn bv2dn "" flags = some [] := rfl

/-- C8: the error mapper raises the class registered for a result code
when the code lies inside the table range and its slot is populated, and
falls back to the base error class otherwise; in the bare-code path
(LDAPerr) an unclassified code raises the base class with payload
exactly errnum = code. -/
theorem error_table_lookup (tbl : ErrTable) (code : Int) :
    (∀ cls, tbl.errMin ≤ code → code ≤ tbl.errMax →
        tbl.registered code = some cls →
        LDAPerr tbl code = RaisedErr.classified cls ∧
        LDAPraise_classify tbl code = RaiseClassChoice.classifiedClass cls) ∧
    ((¬ (tbl.errMin ≤ code ∧ code ≤ tbl.errMax) ∨ tbl.registered code = none) →
        LDAPerr tbl code = RaisedErr.baseWithErrnum code ∧
        LDAPraise_classify tbl code = RaiseClassChoice.baseClass) := by
  constructor
  · intro cls h1 h2 hreg
    constructor
    · simp [LDAPerr, h1, h2, hreg]
    · simp [LDAPraise_classify, h1, h2, hreg]
  · intro h
    by_cases hin : tbl.errMin ≤ code ∧ code ≤ tbl.errMax
    · rcases h with h | h
      · exact absurd hin h
      · constructor
        · simp [LDAPerr, hin, h]
        · simp [LDAPraise_classify, hin, h]
    · constructor
      · simp [LDAPerr, hin]
      · simp [LDAPraise_classify, hin]

/-- Witness evaluating error_table_lookup on the concrete table: code 1
is registered with class 7, code 99 is outside the range. -/
theorem error_table_lookup_witness :
    (LDAPerr errTableW 1 = RaisedErr.classified 7 ∧
      LDAPraise_classify errTableW 1 = RaiseClassChoice.classifiedClass 7) ∧
    (LDAPerr errTableW 99 = RaisedErr.baseWithErrnum 99 ∧
      LDAPraise_classify errTableW 99 = RaiseClassChoice.baseClass) :=
  ⟨(error_table_lookup errTableW 1).1 7 (by decide) (by decide) (by decide),
   (error_table_lookup errTableW 99).2 (Or.inl (by decide))⟩

/-- C9: the release slot is empty except during an in-flight blocking
call: starting from an empty slot the release bracket parks the thread
state in the slot, the completed bracket leaves the slot empty again,
and releasing while the slot is already occupied is the process-fatal
invariant violation. -/
theorem release_slot_invariant (st : ConnSlotState) (ts : Nat) :
    (st.saveSlot = none →
      LDAP_BEGIN_ALLOW_THREADS st ts = BeginOutcome.ok ⟨some ts⟩ ∧
      blockingCallBracket st ts = some ⟨none⟩) ∧
    (∀ x, st.saveSlot = some x →
      LDAP_BEGIN_ALLOW_THREADS st ts = BeginOutcome.fatalInvariantViolation) := by
  obtain ⟨slot⟩ := st
  constructor
  · intro h
    cases h
    exact ⟨rfl, rfl⟩
  · intro x h
    cases h
    rfl

/-- Witness evaluating release_slot_invariant on an empty slot and on a
slot occupied by thread state 3. -/
theorem release_slot_invariant_witness :
    (LDAP_BEGIN_ALLOW_THREADS ⟨none⟩ 7 = BeginOutcome.ok ⟨some 7⟩ ∧
      blockingCallBracket ⟨none⟩ 7 = some ⟨none⟩) ∧
    LDAP_BEGIN_ALLOW_THREADS ⟨some 3⟩ 7 = BeginOutcome.fatalInvariantViolation :=
  ⟨(release_slot_invariant ⟨none⟩ 7).1 rfl,
   (release_slot_invariant ⟨some 3⟩ 7).2 3 rfl⟩

/-- C5: on a valid connection, when the engine poll reports no pending
result, a zero timeout returns the all-None envelope (6-tuple when
extended-operation decoding was requested, else 4-tuple) and raises no
error, while a nonzero timeout raises the Timeout error instead. -/
theorem result4_no_pending (fn : Option Rat → Int) (valid : Bool)
    (timeout : Rat) (add_extop : Bool)
    (hv : valid = true)
    (hres : fn (if 0 ≤ timeout then some timeout else none) = 0) :
    (timeout = 0 →
      l_ldap_result4 fn valid timeout add_extop =
        Result4Outcome.noneTuple (if add_extop then 6 else 4)) ∧
    (timeout ≠ 0 →
      l_ldap_result4 fn valid timeout add_extop =
        Result4Outcome.raiseLDAPerr LDAP_TIMEOUT) := by
  subst hv
  constructor
  · intro ht
    subst ht
    have hres0 : fn (some 0) = 0 := by simpa using hres
    simp [l_ldap_result4, not_valid, hres0]
  · intro ht
    simp [l_ldap_result4, not_valid, hres, ht]

/-- Witness evaluating result4_no_pending with an engine that always
reports no pending result, once at timeout 0 and once at timeout 3. -/
theorem result4_no_pending_witness :
    l_ldap_result4 (fun _ => (0 : Int)) true 0 false =
      Result4Outcome.noneTuple 4 ∧
    l_ldap_result4 (fun _ => (0 : Int)) true 3 true =
      Result4Outcome.raiseLDAPerr LDAP_TIMEOUT := by
  constructor
  · have h := (result4_no_pending (fun _ => (0 : Int)) true 0 false rfl rfl).1 rfl
    simpa using h
  · have h := (result4_no_pending (fun _ => (0 : Int)) true 3 true rfl rfl).2
      (by norm_num)
    simpa using h

/-- C6 counterexample: invoking set_option (and likewise get_option) on
an unbound handle does not raise the connection invalid error; the body
of l_ldap_set_option and l_ldap_get_option goes straight from argument
parsing into the option machinery with no validity check, refuting the
claim that every method of the handle checks validity first. -/
theorem set_option_skips_validity_cex :
    methodEntry ConnMethodName.set_option false = MethodEntryResult.proceed ∧
    methodEntry ConnMethodName.get_option false = MethodEntryResult.proceed ∧
    LDAP_set_option false OptId.OPT_PROTOCOL_VERSION (PyOptVal.vInt 3) =
      SetOptOutcome.engineSetOption true :=
  ⟨rfl, rfl, rfl⟩

/-- C6 amended: every method of the connection handle raises the
connection invalid error on an unbound handle before any marshaling or
protocol call, except set_option and get_option, which proceed into the
option machinery without a validity check — LDAP_set_option behaves
identically whether or not the handle is valid. -/
theorem validity_guard_all_but_options (m : ConnMethodName) (opt : OptId)
    (value : PyOptVal) (b1 b2 : Bool)
    (h1 : m ≠ ConnMethodName.set_option)
    (h2 : m ≠ ConnMethodName.get_option) :
    methodEntry m false = MethodEntryResult.connInvalid ∧
    LDAP_set_option b1 opt value = LDAP_set_option b2 opt value := by
  constructor
  · cases m <;> first
      | rfl
      | exact absurd rfl h1
      | exact absurd rfl h2
  · rfl

/-- Witness evaluating validity_guard_all_but_options at modify_ext and
at a concrete option id and value. -/
theorem validity_guard_all_but_options_witness :
    methodEntry ConnMethodName.modify_ext false =
      MethodEntryResult.connInvalid ∧
    LDAP_set_option false OptId.OPT_DEREF (PyOptVal.vInt 2) =
      LDAP_set_option true OptId.OPT_DEREF (PyOptVal.vInt 2) :=
  validity_guard_all_but_options ConnMethodName.modify_ext OptId.OPT_DEREF
    (PyOptVal.vInt 2) false true (by decide) (by decide)

/-- Every berval produced from a values sequence points at the address of
one of the byte-string objects of that sequence. -/
theorem seqToBervals_addrs (items : List SeqItem) (bvs : List BervalPtr)
    (h : seqToBervals items = some bvs) :
    ∀ bv ∈ bvs, bv.bv_val ∈ modvalsAddrs (ModvalsArg.mvSeq items) := by
  induction items generalizing bvs with
  | nil =>
    cases h
    intro bv hbv
    exact absurd hbv (by simp)
  | cons it rest ih =>
    cases it with
    | nonBytesItem => exact absurd h (by simp [seqToBervals])
    | bytesItem b =>
      unfold seqToBervals at h
      cases hr : seqToBervals rest with
      | none => rw [hr] at h; exact absurd h (by simp)
      | some bvs0 =>
        rw [hr] at h
        cases h
        intro bv hbv
        simp only [modvalsAddrs, List.filterMap_cons] at *
        rcases List.mem_cons.mp hbv with hb | hb
        · subst hb
          exact List.mem_cons_self _ _
        · exact List.mem_cons_of_mem _ (ih bvs0 hr bv hb)

/-- Characterization of a successful buildLDAPMod: the mod_type buffer is
the fresh native allocation with the type characters copied into it, the
allocation counter advances, and every berval points at a caller
byte-string buffer. -/
theorem buildLDAPMod_spec (fresh op : Nat) (mtype : String)
    (vals : ModvalsArg) (lm : LDAPModN) (f2 : Nat)
    (h : buildLDAPMod fresh op mtype vals = some (lm, f2)) :
    lm.mod_type_addr = fresh ∧ lm.mod_type_data = mtype ∧ f2 = fresh + 1 ∧
    ∀ bv ∈ lm.mod_bvalues.getD [], bv.bv_val ∈ modvalsAddrs vals := by
  unfold buildLDAPMod at h
  by_cases hnul : hasNulChar mtype
  · simp [hnul] at h
  · simp only [hnul, if_false, Bool.false_eq_true] at h
    cases vals with
    | mvNone =>
      cases h
      refine ⟨rfl, rfl, rfl, ?_⟩
      intro bv hbv
      exact absurd hbv (by simp)
    | mvOther =>
      cases h
      refine ⟨rfl, rfl, rfl, ?_⟩
      intro bv hbv
      exact absurd hbv (by simp)
    | mvBytes b =>
      cases h
      refine ⟨rfl, rfl, rfl, ?_⟩
      intro bv hbv
      simp only [Option.getD_some, List.mem_singleton] at hbv
      subst hbv
      simp [modvalsAddrs]
    | mvSeq items =>
      dsimp only at h
      cases hseq : seqToBervals items with
      | none => rw [hseq] at h; exact absurd h (by simp)
      | some bvs =>
        rw [hseq] at h
        cases h
        exact ⟨rfl, rfl, rfl, by
          intro bv hbv
          simp only [Option.getD_some] at hbv
          exact seqToBervals_addrs items bvs hseq bv hbv⟩

/-- The same characterization for Tuple_to_LDAPMod, relative to the
addresses reachable from the whole modification tuple. -/
theorem tuple_mod_spec (fresh : Nat) (no_op : Bool) (t : ModTupleShape)
    (lm : LDAPModN) (f2 : Nat)
    (h : Tuple_to_LDAPMod fresh no_op t = some (lm, f2)) :
    lm.mod_type_addr = fresh ∧ f2 = fresh + 1 ∧
    ∀ bv ∈ lm.mod_bvalues.getD [], bv.bv_val ∈ shapeValueAddrs t := by
  cases no_op with
  | true =>
    cases t with
    | pair mtype vals =>
      have hb : buildLDAPMod fresh 0 mtype vals = some (lm, f2) := h
      obtain ⟨h1, _, h3, h4⟩ := buildLDAPMod_spec _ _ _ _ _ _ hb
      exact ⟨h1, h3, h4⟩
    | triple op mtype vals => exact absurd h (by simp [Tuple_to_LDAPMod])
    | notATuple => exact absurd h (by simp [Tuple_to_LDAPMod])
  | false =>
    cases t with
    | pair mtype vals => exact absurd h (by simp [Tuple_to_LDAPMod])
    | triple op mtype vals =>
      have hb : buildLDAPMod fresh op mtype vals = some (lm, f2) := h
      obtain ⟨h1, _, h3, h4⟩ := buildLDAPMod_spec _ _ _ _ _ _ hb
      exact ⟨h1, h3, h4⟩
    | notATuple => exact absurd h (by simp [Tuple_to_LDAPMod])

/-- C1 counterexample: marshaling the single modification
(replace, mail, bytes object at caller address 5) with the native
allocator starting at address 100 yields a berval whose bv_val pointer
is the caller address 5 — the value is not copied into a newly owned
buffer but aliases the caller byte-string storage, refuting the claim
(the source comment itself warns that the LDAPMod structures point
directly into the Python string storage). -/
theorem mod_value_aliases_caller_cex :
    firstBvVal (List_to_LDAPMods 100 false
      [ModTupleShape.triple 2 "mail" (ModvalsArg.mvBytes ⟨5, [97]⟩)]) =
      some 5 ∧ 5 < 100 := by decide

/-- C1 amended: the modification marshaler copies only the
attribute-type string into a newly allocated buffer (every mod_type
address is at or above the allocation watermark, hence disjoint from all
caller buffers below it), while every value berval points directly at
one of the caller byte-string buffers, so the native array must not
outlive the caller input objects. -/
theorem mods_marshal_ownership (fresh : Nat) (no_op : Bool)
    (l : List ModTupleShape) (out : List LDAPModN) (f2 : Nat)
    (h : List_to_LDAPMods fresh no_op l = some (out, f2)) :
    (∀ lm ∈ out, fresh ≤ lm.mod_type_addr) ∧
    (∀ lm ∈ out, ∀ bv ∈ lm.mod_bvalues.getD [],
      bv.bv_val ∈ listValueAddrs l) := by
  induction l generalizing fresh out f2 with
  | nil =>
    cases h
    constructor
    · intro lm hlm; exact absurd hlm (by simp)
    · intro lm hlm; exact absurd hlm (by simp)
  | cons t rest ih =>
    unfold List_to_LDAPMods at h
    cases ht : Tuple_to_LDAPMod fresh no_op t with
    | none => rw [ht] at h; exact absurd h (by simp)
    | some p =>
      obtain ⟨lm0, f1⟩ := p
      rw [ht] at h
      dsimp only at h
      cases hr : List_to_LDAPMods f1 no_op rest with
      | none => rw [hr] at h; exact absurd h (by simp)
      | some q =>
        obtain ⟨lms, fr⟩ := q
        rw [hr] at h
        cases h
        obtain ⟨haddr, hf1, hvals⟩ := tuple_mod_spec fresh no_op t lm0 f1 ht
        obtain ⟨ih1, ih2⟩ := ih f1 lms _ hr
        constructor
        · intro lm hlm
          rcases List.mem_cons.mp hlm with hl | hl
          · subst hl; exact le_of_eq haddr.symm
          · have := ih1 lm hl
            omega
        · intro lm hlm bv hbv
          have hsplit : listValueAddrs (t :: rest) =
              shapeValueAddrs t ++ listValueAddrs rest := by
            simp [listValueAddrs]
          rw [hsplit]
          rcases List.mem_cons.mp hlm with hl | hl
          · subst hl
            exact List.mem_append_left _ (hvals bv hbv)
          · exact List.mem_append_right _ (ih2 lm hl bv hbv)

/-- Witness evaluating mods_marshal_ownership on the concrete
one-element modification list of the counterexample input. -/
theorem mods_marshal_ownership_witness :
    100 ≤ (LDAPModN.mk 130 100 "mail" (some [⟨1, 5⟩])).mod_type_addr ∧
    (5 : Nat) ∈ listValueAddrs
      [ModTupleShape.triple 2 "mail" (ModvalsArg.mvBytes ⟨5, [97]⟩)] := by
  have h := mods_marshal_ownership 100 false
    [ModTupleShape.triple 2 "mail" (ModvalsArg.mvBytes ⟨5, [97]⟩)]
    [LDAPModN.mk 130 100 "mail" (some [⟨1, 5⟩])] 101 (by decide)
  exact ⟨h.1 (LDAPModN.mk 130 100 "mail" (some [⟨1, 5⟩])) (by decide),
    h.2 (LDAPModN.mk 130 100 "mail" (some [⟨1, 5⟩])) (by decide)
      ⟨1, 5⟩ (by decide)⟩

/-- Bitwise and on naturals is associative. -/
theorem nat_land_assoc (a b c : Nat) : a &&& b &&& c = a &&& (b &&& c) := by
  apply Nat.eq_of_testBit_eq
  intro i
  simp [Nat.testBit_and, Bool.and_assoc]

/-- Bitwise and with zero is zero. -/
theorem nat_land_zero (a : Nat) : a &&& 0 = 0 := by
  apply Nat.eq_of_testBit_eq
  intro i
  simp [Nat.testBit_and]

/-- Masking with the 32-bit complement of the FREE bits clears both FREE
bits. -/
theorem maskAvaFlags_clears_free (f : Nat) :
    maskAvaFlags f &&& (LDAP_AVA_FREE_ATTR ||| LDAP_AVA_FREE_VALUE) = 0 := by
  unfold maskAvaFlags
  rw [nat_land_assoc]
  have h : Nat.xor (2 ^ 32 - 1) (LDAP_AVA_FREE_ATTR ||| LDAP_AVA_FREE_VALUE) &&&
      (LDAP_AVA_FREE_ATTR ||| LDAP_AVA_FREE_VALUE) = 0 := by decide
  rw [h, nat_land_zero]

/-- Bitwise and is idempotent. -/
theorem nat_land_self (a : Nat) : a &&& a = a := by
  apply Nat.eq_of_testBit_eq
  intro i
  simp [Nat.testBit_and]

/-- Masking is idempotent. -/
theorem maskAvaFlags_idem (f : Nat) :
    maskAvaFlags (maskAvaFlags f) = maskAvaFlags f := by
  unfold maskAvaFlags
  rw [nat_land_assoc, nat_land_self]

/-- C10: every encoding-flags integer in the AVA triples returned by the
DN parser wrapper has the engine-internal ownership bits
LDAP_AVA_FREE_ATTR and LDAP_AVA_FREE_VALUE cleared, whatever bitmask the
underlying engine parser set. -/
theorem str2dn_clears_free_bits (bv2dn : String → Int → Option EngineDN)
    (s : String) (flags : Int) (L : PyDN)
    (h : l_ldap_str2dn bv2dn s flags = some L) :
    ∀ rdn ∈ L, ∀ ava ∈ rdn,
      ava.2.2 &&& (LDAP_AVA_FREE_ATTR ||| LDAP_AVA_FREE_VALUE) = 0 := by
  intro rdn hrdn ava hava
  unfold l_ldap_str2dn at h
  by_cases hs : s.length = 0
  · rw [if_pos hs] at h
    cases h
    exact absurd hrdn (by simp)
  · rw [if_neg hs] at h
    cases hd : bv2dn s flags with
    | none => rw [hd] at h; exact absurd h (by simp)
    | some d =>
      rw [hd] at h
      cases h
      simp only [engineDNtoPy, List.mem_map] at hrdn
      obtain ⟨rdn0, _, hr0⟩ := hrdn
      subst hr0
      simp only [List.mem_map] at hava
      obtain ⟨ava0, _, ha0⟩ := hava
      subst ha0
      exact maskAvaFlags_clears_free ava0.la_flags

/-- Witness evaluating str2dn_clears_free_bits on a parser that reports
flags 0x33 for its single AVA; the exposed flags are 3 and carry no FREE
bit. -/
theorem str2dn_clears_free_bits_witness :
    (3 : Nat) &&& (LDAP_AVA_FREE_ATTR ||| LDAP_AVA_FREE_VALUE) = 0 :=
  str2dn_clears_free_bits (fun _ _ => some [[⟨"a", "b", 0x33⟩]]) "a=b" 0
    [[("a", "b", 3)]] (by decide)
    [("a", "b", 3)] (by simp)
    ("a", "b", 3) (by simp)

/-- A string has length zero exactly when it is the empty string. -/
theorem string_length_zero_iff (s : String) : s.length = 0 ↔ s = "" := by
  obtain ⟨data⟩ := s
  constructor
  · intro h
    have hd : data = [] := List.length_eq_zero.mp h
    subst hd
    rfl
  · intro h
    have hd : data = [] := congrArg String.data h
    subst hd
    rfl

/-- One AVA survives the Python round trip: converting the exposed
triple back to an engine AVA and exposing it again changes nothing,
because flag masking is idempotent. -/
theorem avaToPy_round (a : EngineAVA) :
    avaToPy (EngineAVA.mk (avaToPy a).1 (avaToPy a).2.1 (avaToPy a).2.2) =
      avaToPy a := by
  simp [avaToPy, maskAvaFlags_idem]

/-- A Python DN obtained from the parser wrapper survives the structure
round trip through the builder wrapper conversion. -/
theorem engineDNtoPy_round (d : EngineDN) :
    engineDNtoPy (pyDNtoEngine (engineDNtoPy d)) = engineDNtoPy d := by
  unfold engineDNtoPy pyDNtoEngine
  simp only [List.map_map]
  congr 1
  funext rdn
  simp only [Function.comp, List.map_map]
  congr 1
  funext a
  exact avaToPy_round a

/-- C3: for every DN string the parser wrapper accepts, building a
string from the parsed structure and parsing that string again yields
the same structure — the rebuilt DN is equivalent to the input under the
same flags.  The engine parser and builder are external; their contract,
modelled from the spec, is the hypothesis pair: parsing a string the
builder produced for a non-empty structure returns that structure, and
the builder produces the empty string exactly for the empty
structure. -/
theorem dn_roundtrip_equiv (bv2dn : String → Int → Option EngineDN)
    (dn2bv : EngineDN → Int → Option String) (flags : Int)
    (s s2 : String) (L : PyDN)
    (hinv : ∀ d t, d ≠ [] → dn2bv d flags = some t →
      bv2dn t flags = some d)
    (hempty : ∀ d t, dn2bv d flags = some t → (t = "" ↔ d = []))
    (h1 : l_ldap_str2dn bv2dn s flags = some L)
    (h2 : l_ldap_dn2str dn2bv L flags = some s2) :
    l_ldap_str2dn bv2dn s2 flags = some L := by
  unfold l_ldap_dn2str at h2
  by_cases hs2 : s2 = ""
  · subst hs2
    have hLnil : pyDNtoEngine L = [] := (hempty _ _ h2).mp rfl
    have hL : L = [] := by
      unfold pyDNtoEngine at hLnil
      exact List.map_eq_nil_iff.mp hLnil
    subst hL
    exact rfl
  · have hdne : pyDNtoEngine L ≠ [] := by
      intro hnil
      exact hs2 ((hempty _ _ h2).mpr hnil)
    have hbv : bv2dn s2 flags = some (pyDNtoEngine L) := hinv _ _ hdne h2
    have hlen : ¬ s2.length = 0 := fun h => hs2 ((string_length_zero_iff s2).mp h)
    unfold l_ldap_str2dn
    rw [if_neg hlen, hbv, Option.map_some']
    unfold l_ldap_str2dn at h1
    by_cases hs : s.length = 0
    · rw [if_pos hs] at h1
      cases h1
      exact absurd rfl hdne
    · rw [if_neg hs] at h1
      cases hd : bv2dn s flags with
      | none => rw [hd] at h1; exact absurd h1 (by simp)
      | some d0 =>
        rw [hd, Option.map_some'] at h1
        cases h1
        rw [engineDNtoPy_round d0]

/-- Witness evaluating dn_roundtrip_equiv on the toy engine bv2dnW and
dn2bvW: the spelling A=B parses to the single-AVA structure, which the
builder prints as a=b, and parsing a=b returns the same structure. -/
theorem dn_roundtrip_equiv_witness :
    l_ldap_str2dn bv2dnW "a=b" 0 = some [[("a", "b", 0)]] := by
  apply dn_roundtrip_equiv bv2dnW dn2bvW 0 "A=B" "a=b" [[("a", "b", 0)]]
  · intro d t hd ht
    unfold dn2bvW at ht
    rw [if_neg hd] at ht
    by_cases h1 : d = [[⟨"a", "b", 0⟩]]
    · rw [if_pos h1] at ht
      cases ht
      rw [h1]
      decide
    · rw [if_neg h1] at ht
      exact absurd ht (by simp)
  · intro d t ht
    unfold dn2bvW at ht
    by_cases h0 : d = []
    · rw [if_pos h0] at ht
      cases ht
      simp [h0]
    · rw [if_neg h0] at ht
      by_cases h1 : d = [[⟨"a", "b", 0⟩]]
      · rw [if_pos h1] at ht
        cases ht
        constructor
        · intro h
          exact absurd h (by decide)
        · intro h
          exact absurd h h0
      · rw [if_neg h1] at ht
        exact absurd ht (by simp)
  · decide
  · decide

end PythonLdap
